import Mathlib

/-!
Verification development for the panopticon lead-follow-up system.

This file gives a shallow embedding, in Lean 4, of the parts of the
repository relevant to the frozen claims:

* `src/data_processing.py` — the classification engine
  (`get_lead_status`, `get_lead_status_v2`, `find_matching_delivery`,
  `get_days_since_last_activity`, `has_note_since_appointment`,
  `has_progressed_from_unacknowledged`, `count_leads_by_status`);
* `src/zoho_client.py` — the request executor (`_parse_retry_after`,
  `_make_request`), the stage-history fetch (`get_stage_history`,
  `_fetch_stage_history_from_api`, `get_stage_histories_batch`) and the
  notes batch fetch (`get_notes_for_leads`);
* `src/cache.py` — the TTL cache (`get_cached_stage_histories_batch`,
  `set_cached_stage_histories_batch`).

Modelling conventions:

* Python `datetime` values are modelled as UTC epoch-second integers
  (`Int`); `timedelta.days` is floor division by 86400 (`Int.fdiv`),
  matching Python's floor semantics.  Date strings that the code parses
  with `fromisoformat`/`parse_zoho_date` are modelled as already-parsed
  `Option Int` values, `none` standing for a missing or unparseable value.
* Python `None`-able strings are `Option String`; Python truthiness of a
  string (`if s:`) is `s ≠ ""` after the `Option` has been resolved.
* The external `rapidfuzz.fuzz.ratio` similarity is an uninterpreted
  parameter `sim : String → String → Nat` (a percentage score); the date
  formatter `strftime` is an uninterpreted parameter `fmtDate`.
* Network effects are modelled by oracles: a response sequence for the
  request executor, and per-lead fetch outcomes (`Except Unit _`, where
  `.error ()` is a raised exception) for the batch fetchers.
-/

/-- Python's `str.lower()` (ASCII case folding), written on the
character list so that it evaluates inside the kernel. -/
def lowerStr (s : String) : String :=
  String.mk (s.data.map Char.toLower)

/-- Python's `str.strip()`: drop leading and trailing whitespace. -/
def trimStr (s : String) : String :=
  String.mk
    (((s.data.dropWhile Char.isWhitespace).reverse.dropWhile
      Char.isWhitespace).reverse)

/-- Python's substring test `needle in haystack`, as list infix on the
characters of the strings. -/
def containsB (needle haystack : String) : Bool :=
  decide (needle.toList <:+: haystack.toList)

/-- Python truthiness of an optional string: not `None` and not empty. -/
def optTruthy (s : Option String) : Bool :=
  match s with
  | none => false
  | some v => v ≠ ""

/-! ## Data model (src/data_processing.py, src/zoho_client.py) -/

/-- A stage transition as produced by `get_stage_history`:
`{from_stage, to_stage, changed_at}`.  `changed_at` is an epoch-second
timestamp, `none` when the upstream value was missing or unparseable. -/
structure Transition where
  from_stage : Option String
  to_stage : Option String
  changed_at : Option Int
deriving DecidableEq, Repr

/-- A lead's latest note: `{content, time}`.  `time` is `none` when the
note carried no parseable timestamp. -/
structure Note where
  content : String
  time : Option Int
deriving DecidableEq, Repr

/-- The lead fields read by `get_lead_status_v2`.  The Python code reads
them with `lead.get(...) or ...` fallback chains over alternate key
names; the structure carries the extracted values (empty string when the
dict had neither key). -/
structure Lead where
  id : String
  name : String
  current_stage : String
  appointment_date : Option Int
  street_address : String
  zip_code : String
deriving DecidableEq, Repr

/-- A delivery record as built by `get_deliveries`: every field is
`Option`al because the upstream values may be `None`. -/
structure Delivery where
  id : Option String
  name : Option String
  locating_id : Option String
  address : Option String
  zip_code : Option String
deriving DecidableEq, Repr

/-! ## Constants (src/data_processing.py lines 20-33) -/

def STALE_THRESHOLD_DAYS : Int := 7

def AT_RISK_THRESHOLD_DAYS : Int := 5

def STALE_NO_ACTIVITY_DAYS : Int := 14

def FUZZY_MATCH_THRESHOLD : Nat := 60

def ZOHO_ORG_ID : String := "org31352869"

def ZOHO_DELIVERIES_MODULE : String := "CustomModule22"

/-! ## Legacy classifier (src/data_processing.py, `get_lead_status`) -/

/-- The terminal-stage tuple of the legacy classifier (exact, lowercased
membership). -/
def legacyTerminalStages : List String :=
  ["green/ delivered", "delivery requested", "red/ rejected",
   "green/no operator", "declined by operator", "green - lll fulfilled",
   "red/not viable"]

/-- `get_lead_status(days_since, stage, days_since_modified)`
(src/data_processing.py lines 43-96), the legacy single-pass classifier. -/
def get_lead_status (days_since : Int) (stage : Option String)
    (days_since_modified : Option Int) : String :=
  let stage_lower := lowerStr (stage.getD "")
  if legacyTerminalStages.contains stage_lower then "healthy"
  else if stage_lower = "green - approved by locator" then
    match days_since_modified with
    | some m => if 7 < m then "needs_attention" else "healthy"
    | none => "healthy"
  else if STALE_THRESHOLD_DAYS ≤ days_since then "stale"
  else if stage_lower = "appt not acknowledged" then "at_risk"
  else if AT_RISK_THRESHOLD_DAYS ≤ days_since then "at_risk"
  else "healthy"

/-! ## Delivery matching (src/data_processing.py, `find_matching_delivery`) -/

/-- `format_delivery_link` (src/data_processing.py lines 102-104). -/
def format_delivery_link (delivery_id : String) : String :=
  "https://crm.zoho.com/crm/" ++ ZOHO_ORG_ID ++ "/tab/" ++
    ZOHO_DELIVERIES_MODULE ++ "/" ++ delivery_id

/-- One iteration of the fuzzy-match loop of `find_matching_delivery`
(src/data_processing.py lines 147-178).  The accumulator is
`(best_match, best_score)`; `lnl` is `lead_name.lower().strip()` and
`sim` stands for `rapidfuzz.fuzz.ratio`. -/
def fuzzyStep (sim : String → String → Nat)
    (lnl lead_address lead_zip : String)
    (acc : Option Delivery × Nat) (d : Delivery) : Option Delivery × Nat :=
  match d.name with
  | none => acc
  | some dn =>
    if dn = "" then acc
    else
      let score := sim lnl (trimStr (lowerStr dn))
      if FUZZY_MATCH_THRESHOLD ≤ score ∧ acc.2 < score then
        if 90 ≤ score then (some d, score)
        else
          let delivery_address := lowerStr (d.address.getD "")
          let delivery_zip := d.zip_code.getD ""
          if lead_address ≠ "" ∧ lead_zip ≠ "" then
            if (containsB (trimStr (lowerStr lead_address)) delivery_address ∨
                containsB delivery_address (trimStr (lowerStr lead_address))) ∧
               trimStr lead_zip = trimStr delivery_zip then
              (some d, score)
            else acc
          else (some d, score)
      else acc

/-- `find_matching_delivery(lead_id, lead_name, deliveries, lead_address,
lead_zip)` (src/data_processing.py lines 107-186).  Strategy 1 scans for a
direct `locating_id` match; strategy 2 runs the fuzzy best-match loop. -/
def find_matching_delivery (sim : String → String → Nat)
    (lead_id lead_name : String) (deliveries : List Delivery)
    (lead_address lead_zip : String) : Option Delivery :=
  match deliveries.find? (fun d => d.locating_id == some lead_id) with
  | some d => some d
  | none =>
    if lead_name = "" then none
    else
      (deliveries.foldl
        (fuzzyStep sim (trimStr (lowerStr lead_name)) lead_address lead_zip)
        (none, 0)).1

/-- The acceptance condition of the fuzzy loop, detached from the
best-score bookkeeping: the delivery has a truthy name, its similarity
score reaches the 60% threshold, and either the score reaches 90% or —
whenever the lead has both an address and a zip — the delivery's address
contains / is contained in the lead's and the zips are equal.  A delivery
satisfying this is exactly one the loop is willing to select. -/
def fuzzyQualifiesB (sim : String → String → Nat)
    (lnl lead_address lead_zip : String) (d : Delivery) : Bool :=
  match d.name with
  | none => false
  | some dn =>
    if dn = "" then false
    else
      let score := sim lnl (trimStr (lowerStr dn))
      decide (FUZZY_MATCH_THRESHOLD ≤ score ∧
        (90 ≤ score ∨
          (lead_address ≠ "" ∧ lead_zip ≠ "" →
            (containsB (trimStr (lowerStr lead_address)) (lowerStr (d.address.getD "")) ∨
             containsB (lowerStr (d.address.getD "")) (trimStr (lowerStr lead_address))) ∧
            trimStr lead_zip = trimStr (d.zip_code.getD ""))))

/-! ## Activity and acknowledgment helpers (src/data_processing.py) -/

/-- `has_progressed_from_unacknowledged(stage_history, current_stage)`
(src/data_processing.py lines 213-247). -/
def has_progressed_from_unacknowledged (stage_history : List Transition)
    (current_stage : String) : Bool :=
  (if current_stage ≠ "" then
    let stage_lower := lowerStr current_stage
    containsB "acknowledged" stage_lower &&
      !(containsB "not acknowledged" stage_lower)
   else false) ||
  stage_history.any (fun t =>
    let fs := lowerStr (t.from_stage.getD "")
    let ts := lowerStr (t.to_stage.getD "")
    containsB "not acknowledged" fs ||
      (containsB "acknowledged" ts && !(containsB "not acknowledged" ts)))

/-- `get_days_since_last_activity(stage_history, latest_note)`
(src/data_processing.py lines 250-306).  `now` is the current time;
the result is `9999` when no timestamped activity exists, else the
floor day count since the most recent activity. -/
def get_days_since_last_activity (stage_history : List Transition)
    (latest_note : Option Note) (now : Int) : Int :=
  let lastFromHistory := stage_history.foldl
    (fun acc t =>
      match t.changed_at with
      | some c =>
        match acc with
        | none => some c
        | some a => if a < c then some c else some a
      | none => acc)
    none
  let last_activity :=
    match latest_note with
    | some n =>
      match n.time with
      | some c =>
        match lastFromHistory with
        | none => some c
        | some a => if a < c then some c else some a
      | none => lastFromHistory
    | none => lastFromHistory
  match last_activity with
  | none => 9999
  | some t => (now - t).fdiv 86400

/-- `has_note_since_appointment(latest_note, appointment_date)`
(src/data_processing.py lines 309-349). -/
def has_note_since_appointment (latest_note : Option Note)
    (appointment_date : Option Int) : Bool :=
  match latest_note, appointment_date with
  | some n, some appt =>
    match n.time with
    | some t => appt < t
    | none => false
  | _, _ => false

/-! ## Full classifier (src/data_processing.py, `get_lead_status_v2`) -/

/-- The terminal-stage substrings of `get_lead_status_v2`
(src/data_processing.py lines 390-401); matching is by substring of the
lowercased current stage. -/
def v2TerminalStages : List String :=
  ["green/ delivered", "green/delivered", "delivery requested",
   "red/ rejected", "red/rejected", "green/no operator",
   "green/no-operator", "declined by operator", "green - lll fulfilled",
   "red/not viable"]

/-- Whether the v2 terminal-stage rule fires for a current stage. -/
def v2TerminalHit (current_stage : String) : Bool :=
  v2TerminalStages.any (fun t => containsB t (lowerStr current_stage))

/-- `get_lead_status_v2(lead, stage_history, latest_note, deliveries)`
(src/data_processing.py lines 352-447).  Returns `(status, reason)`.
`sim` abstracts `rapidfuzz.fuzz.ratio`, `fmtDate` abstracts
`strftime("%b %d, %Y")`, and `now` is the current time used by
`get_days_since_last_activity`. -/
def get_lead_status_v2 (sim : String → String → Nat)
    (fmtDate : Int → String) (lead : Lead)
    (stage_history : List Transition) (latest_note : Option Note)
    (deliveries : List Delivery) (now : Int) : String × String :=
  if v2TerminalHit lead.current_stage then
    ("healthy", "Completed - " ++ lead.current_stage)
  else
    match find_matching_delivery sim lead.id lead.name deliveries
        lead.street_address lead.zip_code with
    | some d =>
      -- `matching_delivery.get("name", "Unknown")`: the delivery dicts
      -- built by `get_deliveries` always carry a "name" key, so a `None`
      -- value renders as "None" in the f-string.
      let delivery_name := match d.name with | some n => n | none => "None"
      if d.id.getD "" ≠ "" then
        ("healthy", "Delivery record found: [" ++ delivery_name ++ "](" ++
          format_delivery_link (d.id.getD "") ++ ")")
      else
        ("healthy", "Delivery record found: " ++ delivery_name)
    | none =>
      if has_note_since_appointment latest_note lead.appointment_date then
        match latest_note with
        | some n =>
          match n.time with
          | some t => ("healthy", "Actively worked - note added " ++ fmtDate t)
          | none => ("healthy", "Actively worked - recent note added")
        | none => ("healthy", "Actively worked - recent note added")
      else
        let days_since_activity :=
          get_days_since_last_activity stage_history latest_note now
        if STALE_NO_ACTIVITY_DAYS ≤ days_since_activity then
          ("stale", "No activity for " ++ toString days_since_activity ++ " days")
        else if has_progressed_from_unacknowledged stage_history
            lead.current_stage then
          ("needs_attention", "Stage progressed but no notes added since appointment")
        else
          ("at_risk", "Appointment has never been acknowledged")

/-! ## Status counting (src/data_processing.py, `count_leads_by_status`) -/

/-- The only field of a formatted lead dict that
`count_leads_by_status` consults. -/
structure FormattedLead where
  Status : Option String
deriving DecidableEq, Repr

/-- The four status buckets returned by `count_leads_by_status`. -/
structure StatusCounts where
  stale : Nat
  at_risk : Nat
  needs_attention : Nat
  healthy : Nat
deriving DecidableEq, Repr

/-- The bucket a single formatted lead falls into, per the
if/elif/else chain of `count_leads_by_status` (src/data_processing.py
lines 723-733): keyword containment on `lead.get("Status") or ""`. -/
def statusBucket (status : Option String) : String :=
  let s := status.getD ""
  if containsB "stale" s then "stale"
  else if containsB "at_risk" s then "at_risk"
  else if containsB "needs_attention" s then "needs_attention"
  else "healthy"

/-- One iteration of the `count_leads_by_status` loop. -/
def countStep (c : StatusCounts) (lead : FormattedLead) : StatusCounts :=
  let status := lead.Status.getD ""
  if containsB "stale" status then {c with stale := c.stale + 1}
  else if containsB "at_risk" status then {c with at_risk := c.at_risk + 1}
  else if containsB "needs_attention" status then
    {c with needs_attention := c.needs_attention + 1}
  else {c with healthy := c.healthy + 1}

/-- `count_leads_by_status(leads)` (src/data_processing.py lines 711-734). -/
def count_leads_by_status (leads : List FormattedLead) : StatusCounts :=
  leads.foldl countStep ⟨0, 0, 0, 0⟩

/-! ## Claims C1 and C2: the v2 classifier's staleness and acknowledgment
rules -/

/-- C1 (claim as stated is refuted here): a lead with 20 days since its
last activity (a note 20 days ago, after a 30-day-old appointment), a
non-terminal stage and no delivery match is classified `healthy` by the
recent-note rule, not `stale`: the inactivity rule is also preceded by
the note-since-appointment rule, which the claim's exception list
omits. -/
theorem claim_C1_counterexample :
    v2TerminalHit "Fresh Lead" = false ∧
    find_matching_delivery (fun _ _ => 0) "L1" "John" [] "" "" = none ∧
    STALE_NO_ACTIVITY_DAYS ≤
      get_days_since_last_activity [] (some ⟨"call back", some (10 * 86400)⟩)
        (30 * 86400) ∧
    (get_lead_status_v2 (fun _ _ => 0) (fun _ => "Oct 10")
        ⟨"L1", "John", "Fresh Lead", some 0, "", ""⟩ []
        (some ⟨"call back", some (10 * 86400)⟩) [] (30 * 86400)).1 =
      "healthy" :=
  ⟨by decide, rfl, by decide, rfl⟩

/-- C1 (amended): if the terminal-stage rule, the delivery-match rule
and the note-since-appointment rule all fail to match, then a lead whose
days since last activity reach the 14-day threshold is classified
`stale`, with the reason stating the day count. -/
theorem claim_C1_amended (sim : String → String → Nat)
    (fmtDate : Int → String) (lead : Lead)
    (stage_history : List Transition) (latest_note : Option Note)
    (deliveries : List Delivery) (now : Int)
    (hterm : v2TerminalHit lead.current_stage = false)
    (hdel : find_matching_delivery sim lead.id lead.name deliveries
      lead.street_address lead.zip_code = none)
    (hnote : has_note_since_appointment latest_note lead.appointment_date
      = false)
    (hdays : STALE_NO_ACTIVITY_DAYS ≤
      get_days_since_last_activity stage_history latest_note now) :
    get_lead_status_v2 sim fmtDate lead stage_history latest_note
        deliveries now =
      ("stale", "No activity for " ++
        toString (get_days_since_last_activity stage_history latest_note now)
        ++ " days") := by
  simp only [get_lead_status_v2, hterm, hdel, hnote, Bool.false_eq_true,
    if_false, if_pos hdays]

/-- Witness for `claim_C1_amended`: a lead with a single stage change 20
days ago, no note, no deliveries and a non-terminal stage is `stale`
with reason "No activity for 20 days". -/
theorem claim_C1_amended_witness :
    v2TerminalHit "Fresh Lead" = false ∧
    find_matching_delivery (fun _ _ => 0) "L2" "Jane" [] "" "" = none ∧
    has_note_since_appointment none (some 0) = false ∧
    STALE_NO_ACTIVITY_DAYS ≤
      get_days_since_last_activity [⟨none, some "Fresh Lead", some 0⟩] none
        (20 * 86400) ∧
    get_lead_status_v2 (fun _ _ => 0) (fun _ => "")
        ⟨"L2", "Jane", "Fresh Lead", some 0, "", ""⟩
        [⟨none, some "Fresh Lead", some 0⟩] none [] (20 * 86400) =
      ("stale", "No activity for 20 days") :=
  ⟨by decide, rfl, rfl, by decide,
    claim_C1_amended (fun _ _ => 0) (fun _ => "")
      ⟨"L2", "Jane", "Fresh Lead", some 0, "", ""⟩
      [⟨none, some "Fresh Lead", some 0⟩] none [] (20 * 86400)
      (by decide) rfl rfl (by decide)⟩

/-- C2 (claim as stated is refuted here): the spec's end-to-end scenario
— appointment 10 days ago, stage "Appt Not Acknowledged", empty stage
history, no note, no matching delivery — is classified `stale` with
reason "No activity for 9999 days" (no activity at all yields the 9999
sentinel day count, which trips the 14-day staleness rule before the
acknowledgment check), not `at_risk`. -/
theorem claim_C2_counterexample :
    get_lead_status_v2 (fun _ _ => 0) (fun _ => "")
        ⟨"L1", "John", "Appt Not Acknowledged", some (90 * 86400), "", ""⟩
        [] none [] (100 * 86400) =
      ("stale", "No activity for 9999 days") ∧
    get_lead_status_v2 (fun _ _ => 0) (fun _ => "")
        ⟨"L1", "John", "Appt Not Acknowledged", some (90 * 86400), "", ""⟩
        [] none [] (100 * 86400) ≠
      ("at_risk", "Appointment has never been acknowledged") :=
  ⟨rfl, by decide⟩

/-- C2 (amended): a lead in stage "Appt Not Acknowledged" with an empty
stage history, no note and no delivery records is classified `stale`
with reason "No activity for 9999 days", for every appointment date and
evaluation time: with no recorded activity the day count is the 9999
sentinel, and the staleness rule fires before the acknowledgment
rules. -/
theorem claim_C2_amended (sim : String → String → Nat)
    (fmtDate : Int → String) (id name : String) (appt : Option Int)
    (addr zip : String) (now : Int) :
    get_lead_status_v2 sim fmtDate
        ⟨id, name, "Appt Not Acknowledged", appt, addr, zip⟩ [] none []
        now =
      ("stale", "No activity for 9999 days") := by
  have hterm : v2TerminalHit "Appt Not Acknowledged" = false := by decide
  have hdel : find_matching_delivery sim id name [] addr zip = none := by
    simp [find_matching_delivery]
  have hnote : has_note_since_appointment none appt = false := rfl
  have hdays : get_days_since_last_activity [] none now = 9999 := rfl
  simp only [get_lead_status_v2, hterm, hdel, hnote, hdays,
    Bool.false_eq_true, if_false]
  rw [if_pos (by decide : STALE_NO_ACTIVITY_DAYS ≤ (9999 : Int))]
  rfl

/-! ## Claim C5: the legacy classifier `get_lead_status` -/

/-- C5: the legacy classifier obeys the claimed rules.  A terminal stage
is always `healthy`; any other stage that is neither of the two special
cases follows the 7/5-day thresholds against days-since-appointment;
"Appt Not Acknowledged" is always at least `at_risk` (it is `at_risk` or
`stale`) for every day count; "Green - Approved By Locator" yields
`needs_attention` only when 7+ days have passed since modification, and
`healthy` when fewer than 7 days have passed or no modification date is
known. -/
theorem claim_C5_thm
    (s_t : String) (h_t : lowerStr s_t ∈ legacyTerminalStages)
    (d_t : Int) (m_t : Option Int)
    (s_o : String)
    (h_o1 : lowerStr s_o ∉ legacyTerminalStages)
    (h_o2 : lowerStr s_o ≠ "appt not acknowledged")
    (h_o3 : lowerStr s_o ≠ "green - approved by locator")
    (d_st : Int) (h_st : STALE_THRESHOLD_DAYS ≤ d_st) (m_st : Option Int)
    (d_ar : Int) (h_ar1 : AT_RISK_THRESHOLD_DAYS ≤ d_ar)
    (h_ar2 : d_ar < STALE_THRESHOLD_DAYS) (m_ar : Option Int)
    (d_h : Int) (h_h : d_h < AT_RISK_THRESHOLD_DAYS) (m_h : Option Int)
    (d_na : Int) (m_na : Option Int)
    (d_g : Int) (m_g : Int)
    (h_g : get_lead_status d_g (some "Green - Approved By Locator")
      (some m_g) = "needs_attention")
    (d_g2 : Int) (m_g2 : Int) (h_g2 : m_g2 < 7)
    (d_g3 : Int) :
    get_lead_status d_t (some s_t) m_t = "healthy" ∧
    get_lead_status d_st (some s_o) m_st = "stale" ∧
    get_lead_status d_ar (some s_o) m_ar = "at_risk" ∧
    get_lead_status d_h (some s_o) m_h = "healthy" ∧
    (get_lead_status d_na (some "Appt Not Acknowledged") m_na = "at_risk" ∨
     get_lead_status d_na (some "Appt Not Acknowledged") m_na = "stale") ∧
    7 ≤ m_g ∧
    get_lead_status d_g2 (some "Green - Approved By Locator") (some m_g2) =
      "healthy" ∧
    get_lead_status d_g3 (some "Green - Approved By Locator") none =
      "healthy" := by
  have hnal : lowerStr "Appt Not Acknowledged" = "appt not acknowledged" := rfl
  have hnac : "appt not acknowledged" ∉ legacyTerminalStages := by decide
  have hnag : ("appt not acknowledged" : String) ≠
      "green - approved by locator" := by decide
  have hgal : lowerStr "Green - Approved By Locator" =
      "green - approved by locator" := rfl
  have hgac : "green - approved by locator" ∉ legacyTerminalStages := by
    decide
  refine ⟨?_, ?_, ?_, ?_, ?_, ?_, ?_, ?_⟩
  · simp [get_lead_status, h_t]
  · simp [get_lead_status, h_o1, h_o2, h_o3, h_st]
  · have h7 : ¬ STALE_THRESHOLD_DAYS ≤ d_ar := not_le.mpr h_ar2
    simp [get_lead_status, h_o1, h_o2, h_o3, h7, h_ar1]
  · have h7 : ¬ STALE_THRESHOLD_DAYS ≤ d_h := by
      intro h
      have : AT_RISK_THRESHOLD_DAYS ≤ d_h := by
        simp only [STALE_THRESHOLD_DAYS] at h
        simp only [AT_RISK_THRESHOLD_DAYS]
        omega
      exact absurd this (not_le.mpr h_h)
    have h5 : ¬ AT_RISK_THRESHOLD_DAYS ≤ d_h := not_le.mpr h_h
    simp [get_lead_status, h_o1, h_o2, h_o3, h7, h5]
  · by_cases h7 : STALE_THRESHOLD_DAYS ≤ d_na
    · right
      simp [get_lead_status, hnal, hnac, hnag, h7]
    · left
      simp [get_lead_status, hnal, hnac, hnag, h7]
  · by_cases h7 : 7 < m_g
    · omega
    · exfalso
      rw [get_lead_status] at h_g
      simp [hgal, hgac, h7] at h_g
  · have h7 : ¬ 7 < m_g2 := by omega
    simp [get_lead_status, hgal, hgac, h7]
  · simp [get_lead_status, hgal, hgac]

/-- Witness for `claim_C5_thm` at concrete day counts and stages. -/
theorem claim_C5_witness :
    get_lead_status 1000 (some "Green/ Delivered") none = "healthy" ∧
    get_lead_status 10 (some "Fresh") none = "stale" ∧
    get_lead_status 5 (some "Fresh") none = "at_risk" ∧
    get_lead_status 2 (some "Fresh") none = "healthy" ∧
    (get_lead_status 1 (some "Appt Not Acknowledged") none = "at_risk" ∨
     get_lead_status 1 (some "Appt Not Acknowledged") none = "stale") ∧
    (7 : Int) ≤ 10 ∧
    get_lead_status 0 (some "Green - Approved By Locator") (some 3) =
      "healthy" ∧
    get_lead_status 100 (some "Green - Approved By Locator") none =
      "healthy" :=
  claim_C5_thm "Green/ Delivered" (by decide) 1000 none
    "Fresh" (by decide) (by decide) (by decide)
    10 (by decide) none
    5 (by decide) (by decide) none
    2 (by decide) none
    1 none
    0 10 (by decide)
    0 3 (by decide)
    100

/-! ## Claim C10: `count_leads_by_status` -/

/-- The fold of `count_leads_by_status` counts, per bucket, exactly the
leads whose `statusBucket` is that bucket. -/
theorem count_fold_eq (leads : List FormattedLead) (init : StatusCounts) :
    leads.foldl countStep init =
      ⟨init.stale + leads.countP (fun l => statusBucket l.Status == "stale"),
       init.at_risk +
         leads.countP (fun l => statusBucket l.Status == "at_risk"),
       init.needs_attention +
         leads.countP (fun l => statusBucket l.Status == "needs_attention"),
       init.healthy +
         leads.countP (fun l => statusBucket l.Status == "healthy")⟩ := by
  induction leads generalizing init with
  | nil => simp
  | cons x xs ih =>
    rw [List.foldl_cons, ih]
    by_cases h1 : containsB "stale" (x.Status.getD "") = true
    · simp [countStep, statusBucket, List.countP_cons, h1,
        StatusCounts.mk.injEq]
      omega
    · by_cases h2 : containsB "at_risk" (x.Status.getD "") = true
      · simp [countStep, statusBucket, List.countP_cons, h1, h2,
          StatusCounts.mk.injEq]
        omega
      · by_cases h3 : containsB "needs_attention" (x.Status.getD "") = true
        · simp [countStep, statusBucket, List.countP_cons, h1, h2, h3,
            StatusCounts.mk.injEq]
          omega
        · simp [countStep, statusBucket, List.countP_cons, h1, h2, h3,
            StatusCounts.mk.injEq]
          omega

/-- Every formatted lead falls into exactly one of the four buckets. -/
theorem statusBucket_partition (st : Option String) :
    (if statusBucket st == "stale" then 1 else 0) +
      (if statusBucket st == "at_risk" then 1 else 0) +
      (if statusBucket st == "needs_attention" then 1 else 0) +
      (if statusBucket st == "healthy" then 1 else 0) = 1 := by
  by_cases h1 : containsB "stale" (st.getD "") = true
  · simp [statusBucket, h1]
  · by_cases h2 : containsB "at_risk" (st.getD "") = true
    · simp [statusBucket, h1, h2]
    · by_cases h3 : containsB "needs_attention" (st.getD "") = true
      · simp [statusBucket, h1, h2, h3]
      · simp [statusBucket, h1, h2, h3]


/-- The four bucket counts of any lead list sum to its length. -/
theorem countP_four_sum (leads : List FormattedLead) :
    leads.countP (fun l => statusBucket l.Status == "stale") +
      leads.countP (fun l => statusBucket l.Status == "at_risk") +
      leads.countP (fun l => statusBucket l.Status == "needs_attention") +
      leads.countP (fun l => statusBucket l.Status == "healthy") =
      leads.length := by
  induction leads with
  | nil => rfl
  | cons x xs ih =>
    have hx := statusBucket_partition x.Status
    simp only [List.countP_cons, List.length_cons]
    omega

/-- The sample list used by the C10 witness. -/
def sampleLeads : List FormattedLead :=
  [⟨none⟩, ⟨some "stale"⟩, ⟨some "at_risk"⟩, ⟨some "needs_attention"⟩,
   ⟨some "healthy"⟩, ⟨some ""⟩]

/-- C10: `count_leads_by_status` buckets every lead exactly once — each
of the four counts equals the number of leads whose status keyword puts
it in that bucket, and the four counts sum to the number of leads — and
any lead whose `Status` is `None`, empty, or free of the three keywords
is bucketed `healthy`. -/
theorem claim_C10_thm (leads : List FormattedLead) (s : Option String)
    (h1 : containsB "stale" (s.getD "") = false)
    (h2 : containsB "at_risk" (s.getD "") = false)
    (h3 : containsB "needs_attention" (s.getD "") = false) :
    (count_leads_by_status leads).stale =
      leads.countP (fun l => statusBucket l.Status == "stale") ∧
    (count_leads_by_status leads).at_risk =
      leads.countP (fun l => statusBucket l.Status == "at_risk") ∧
    (count_leads_by_status leads).needs_attention =
      leads.countP (fun l => statusBucket l.Status == "needs_attention") ∧
    (count_leads_by_status leads).healthy =
      leads.countP (fun l => statusBucket l.Status == "healthy") ∧
    (count_leads_by_status leads).stale +
      (count_leads_by_status leads).at_risk +
      (count_leads_by_status leads).needs_attention +
      (count_leads_by_status leads).healthy = leads.length ∧
    statusBucket s = "healthy" := by
  have hfold := count_fold_eq leads ⟨0, 0, 0, 0⟩
  rw [count_leads_by_status, hfold]
  refine ⟨by simp, by simp, by simp, by simp, ?_, ?_⟩
  · simpa using countP_four_sum leads
  · simp [statusBucket, h1, h2, h3]

/-- Witness for `claim_C10_thm` on a six-lead list covering every
bucket, with the keyword-free status instantiated at `None`. -/
theorem claim_C10_witness :
    (count_leads_by_status sampleLeads).stale =
      sampleLeads.countP (fun l => statusBucket l.Status == "stale") ∧
    (count_leads_by_status sampleLeads).at_risk =
      sampleLeads.countP (fun l => statusBucket l.Status == "at_risk") ∧
    (count_leads_by_status sampleLeads).needs_attention =
      sampleLeads.countP
        (fun l => statusBucket l.Status == "needs_attention") ∧
    (count_leads_by_status sampleLeads).healthy =
      sampleLeads.countP (fun l => statusBucket l.Status == "healthy") ∧
    (count_leads_by_status sampleLeads).stale +
      (count_leads_by_status sampleLeads).at_risk +
      (count_leads_by_status sampleLeads).needs_attention +
      (count_leads_by_status sampleLeads).healthy = sampleLeads.length ∧
    statusBucket none = "healthy" :=
  claim_C10_thm sampleLeads none (by decide) (by decide) (by decide)

/-! ## Claim C3: the fuzzy delivery-matching rules -/

/-- Each iteration of the fuzzy loop either keeps the accumulator or
selects the scanned delivery, and it selects only deliveries satisfying
`fuzzyQualifiesB`. -/
theorem fuzzyStep_cases (sim : String → String → Nat)
    (lnl la lz : String) (acc : Option Delivery × Nat) (d : Delivery) :
    fuzzyStep sim lnl la lz acc d = acc ∨
    ((fuzzyStep sim lnl la lz acc d).1 = some d ∧
      fuzzyQualifiesB sim lnl la lz d = true) := by
  unfold fuzzyStep
  cases hn : d.name with
  | none => exact Or.inl rfl
  | some dn =>
    dsimp only
    by_cases hdn : dn = ""
    · rw [if_pos hdn]
      exact Or.inl rfl
    · rw [if_neg hdn]
      by_cases hcond : FUZZY_MATCH_THRESHOLD ≤ sim lnl (trimStr (lowerStr dn))
          ∧ acc.2 < sim lnl (trimStr (lowerStr dn))
      · rw [if_pos hcond]
        by_cases h90 : 90 ≤ sim lnl (trimStr (lowerStr dn))
        · rw [if_pos h90]
          refine Or.inr ⟨rfl, ?_⟩
          unfold fuzzyQualifiesB
          rw [hn]
          simp only [hdn, if_false, decide_eq_true_eq]
          exact ⟨hcond.1, Or.inl h90⟩
        · rw [if_neg h90]
          by_cases hlz : la ≠ "" ∧ lz ≠ ""
          · rw [if_pos hlz]
            by_cases hchk : (containsB (trimStr (lowerStr la))
                  (lowerStr (d.address.getD "")) ∨
                containsB (lowerStr (d.address.getD ""))
                  (trimStr (lowerStr la))) ∧
                trimStr lz = trimStr (d.zip_code.getD "")
            · rw [if_pos hchk]
              refine Or.inr ⟨rfl, ?_⟩
              unfold fuzzyQualifiesB
              rw [hn]
              simp only [hdn, if_false, decide_eq_true_eq]
              exact ⟨hcond.1, Or.inr fun _ => hchk⟩
            · rw [if_neg hchk]
              exact Or.inl rfl
          · rw [if_neg hlz]
            refine Or.inr ⟨rfl, ?_⟩
            unfold fuzzyQualifiesB
            rw [hn]
            simp only [hdn, if_false, decide_eq_true_eq]
            exact ⟨hcond.1, Or.inr fun hcontra => absurd hcontra hlz⟩
      · rw [if_neg hcond]
        exact Or.inl rfl

/-- Soundness of the fuzzy loop: a selected delivery either was already
in the accumulator or is a qualifying member of the scanned list. -/
theorem fuzzyFold_sound (sim : String → String → Nat) (lnl la lz : String) :
    ∀ (l : List Delivery) (acc : Option Delivery × Nat) (e : Delivery),
      (l.foldl (fuzzyStep sim lnl la lz) acc).1 = some e →
      acc.1 = some e ∨
        (e ∈ l ∧ fuzzyQualifiesB sim lnl la lz e = true) := by
  intro l
  induction l with
  | nil => exact fun acc e h => Or.inl h
  | cons x xs ih =>
    intro acc e h
    rw [List.foldl_cons] at h
    rcases ih (fuzzyStep sim lnl la lz acc x) e h with h1 | h2
    · rcases fuzzyStep_cases sim lnl la lz acc x with hc | ⟨hs, hq⟩
      · rw [hc] at h1
        exact Or.inl h1
      · have hxe : x = e := Option.some.inj (hs.symm.trans h1)
        exact Or.inr ⟨hxe ▸ List.mem_cons_self x xs, hxe ▸ hq⟩
    · exact Or.inr ⟨List.mem_cons_of_mem x h2.1, h2.2⟩

/-- Once the fuzzy loop holds a best match it never returns to none. -/
theorem fuzzyFold_isSome (sim : String → String → Nat) (lnl la lz : String) :
    ∀ (l : List Delivery) (acc : Option Delivery × Nat),
      acc.1.isSome = true →
      ((l.foldl (fuzzyStep sim lnl la lz) acc).1).isSome = true := by
  intro l
  induction l with
  | nil => exact fun acc h => h
  | cons x xs ih =>
    intro acc h
    rw [List.foldl_cons]
    refine ih _ ?_
    rcases fuzzyStep_cases sim lnl la lz acc x with hc | ⟨hs, _⟩
    · rw [hc]; exact h
    · rw [hs]; rfl

/-- From an empty accumulator, a non-qualifying delivery leaves the
fuzzy loop state unchanged. -/
theorem fuzzyStep_none_skip (sim : String → String → Nat)
    (lnl la lz : String) (d : Delivery)
    (hq : fuzzyQualifiesB sim lnl la lz d = false) :
    fuzzyStep sim lnl la lz (none, 0) d = (none, 0) := by
  unfold fuzzyQualifiesB at hq
  unfold fuzzyStep
  cases hn : d.name with
  | none => rfl
  | some dn =>
    dsimp only
    rw [hn] at hq
    dsimp only at hq
    by_cases hdn : dn = ""
    · rw [if_pos hdn]
    · rw [if_neg hdn]
      rw [if_neg hdn, decide_eq_false_iff_not] at hq
      by_cases h60 : FUZZY_MATCH_THRESHOLD ≤ sim lnl (trimStr (lowerStr dn))
      · have hrest : ¬(90 ≤ sim lnl (trimStr (lowerStr dn)) ∨
            (la ≠ "" ∧ lz ≠ "" →
              (containsB (trimStr (lowerStr la))
                  (lowerStr (d.address.getD "")) ∨
                containsB (lowerStr (d.address.getD ""))
                  (trimStr (lowerStr la))) ∧
              trimStr lz = trimStr (d.zip_code.getD ""))) :=
          fun hr => hq ⟨h60, hr⟩
        have h90 : ¬ 90 ≤ sim lnl (trimStr (lowerStr dn)) :=
          fun h => hrest (Or.inl h)
        have himp : ¬(la ≠ "" ∧ lz ≠ "" →
            (containsB (trimStr (lowerStr la))
                (lowerStr (d.address.getD "")) ∨
              containsB (lowerStr (d.address.getD ""))
                (trimStr (lowerStr la))) ∧
            trimStr lz = trimStr (d.zip_code.getD "")) :=
          fun h => hrest (Or.inr h)
        have hlz : la ≠ "" ∧ lz ≠ "" := by
          by_contra hc
          exact himp fun h => absurd h hc
        have hchk : ¬((containsB (trimStr (lowerStr la))
              (lowerStr (d.address.getD "")) ∨
            containsB (lowerStr (d.address.getD ""))
              (trimStr (lowerStr la))) ∧
            trimStr lz = trimStr (d.zip_code.getD "")) :=
          fun h => himp fun _ => h
        rw [if_pos ⟨h60, lt_of_lt_of_le (by decide) h60⟩, if_neg h90,
          if_pos hlz, if_neg hchk]
      · rw [if_neg (fun hc => h60 hc.1)]

/-- From an empty accumulator, a qualifying delivery is selected. -/
theorem fuzzyStep_none_accept (sim : String → String → Nat)
    (lnl la lz : String) (d : Delivery)
    (hq : fuzzyQualifiesB sim lnl la lz d = true) :
    ((fuzzyStep sim lnl la lz (none, 0) d).1).isSome = true := by
  unfold fuzzyQualifiesB at hq
  unfold fuzzyStep
  cases hn : d.name with
  | none =>
    rw [hn] at hq
    dsimp only at hq
    cases hq
  | some dn =>
    dsimp only
    rw [hn] at hq
    dsimp only at hq
    by_cases hdn : dn = ""
    · rw [if_pos hdn] at hq; cases hq
    · rw [if_neg hdn] at hq
      rw [if_neg hdn]
      rw [decide_eq_true_eq] at hq
      obtain ⟨h60, hrest⟩ := hq
      rw [if_pos ⟨h60, lt_of_lt_of_le (by decide) h60⟩]
      by_cases h90 : 90 ≤ sim lnl (trimStr (lowerStr dn))
      · rw [if_pos h90]; rfl
      · rw [if_neg h90]
        have himp := hrest.resolve_left h90
        by_cases hlz : la ≠ "" ∧ lz ≠ ""
        · rw [if_pos hlz, if_pos (himp hlz)]; rfl
        · rw [if_neg hlz]; rfl

/-- Completeness of the fuzzy loop: if some delivery in the list
qualifies, the loop ends with a selected match. -/
theorem fuzzyFold_complete (sim : String → String → Nat)
    (lnl la lz : String) :
    ∀ l : List Delivery,
      (∃ d ∈ l, fuzzyQualifiesB sim lnl la lz d = true) →
      ((l.foldl (fuzzyStep sim lnl la lz) (none, 0)).1).isSome = true := by
  intro l
  induction l with
  | nil => rintro ⟨d, hd, _⟩; cases hd
  | cons x xs ih =>
    rintro ⟨d, hd, hq⟩
    rw [List.foldl_cons]
    by_cases hx : fuzzyQualifiesB sim lnl la lz x = true
    · exact fuzzyFold_isSome sim lnl la lz xs _
        (fuzzyStep_none_accept sim lnl la lz x hx)
    · rw [fuzzyStep_none_skip sim lnl la lz x (Bool.eq_false_iff.mpr hx)]
      apply ih
      rcases List.mem_cons.mp hd with rfl | hmem
      · exact absurd hq hx
      · exact ⟨d, hmem, hq⟩

/-- C3 (claim as stated is refuted here): with no direct `locating_id`
match, a delivery whose name similarity is 70% (inside the 60-89% band)
is matched even though the lead's zip ("", none recorded) differs from
the delivery's zip "99999": the address-and-zip corroboration is only
demanded when the lead has both an address and a zip. -/
theorem claim_C3_counterexample :
    (Delivery.mk (some "D9") (some "Jon Doe") none (some "1 Main St")
        (some "99999")).locating_id = none ∧
    ((60 : Nat) ≤ 70 ∧ (70 : Nat) < 90) ∧
    trimStr "" ≠
      trimStr ((Delivery.mk (some "D9") (some "Jon Doe") none
        (some "1 Main St") (some "99999")).zip_code.getD "") ∧
    find_matching_delivery (fun _ _ => 70) "L1" "John Doe"
        [Delivery.mk (some "D9") (some "Jon Doe") none (some "1 Main St")
          (some "99999")] "" "" =
      some (Delivery.mk (some "D9") (some "Jon Doe") none (some "1 Main St")
        (some "99999")) :=
  ⟨rfl, by decide, by decide, rfl⟩

/-- C3 (amended): with no direct `locating_id` match and a truthy lead
name, `find_matching_delivery` returns a match exactly when some
delivery qualifies under the fuzzy rules — name similarity ≥ 90%
accepted on name alone; similarity in [60%, 90%) accepted subject to
zip equality and address containment only when the lead has both an
address and a zip (otherwise on name alone); similarity below 60% never
accepted — and the returned delivery itself is a qualifying member of
the list. -/
theorem claim_C3_amended (sim : String → String → Nat)
    (lead_id lead_name : String) (deliveries : List Delivery)
    (lead_address lead_zip : String)
    (hid : ∀ d ∈ deliveries, (d.locating_id == some lead_id) = false)
    (hname : lead_name ≠ "") :
    ((find_matching_delivery sim lead_id lead_name deliveries lead_address
        lead_zip).isSome =
      deliveries.any
        (fuzzyQualifiesB sim (trimStr (lowerStr lead_name)) lead_address
          lead_zip)) ∧
    ((find_matching_delivery sim lead_id lead_name deliveries lead_address
        lead_zip).all
      (fun d => decide (d ∈ deliveries) &&
        fuzzyQualifiesB sim (trimStr (lowerStr lead_name)) lead_address
          lead_zip d) = true) := by
  have hfind : deliveries.find?
      (fun d => d.locating_id == some lead_id) = none :=
    List.find?_eq_none.mpr fun x hx => by rw [hid x hx]; exact Bool.false_ne_true
  have hres : find_matching_delivery sim lead_id lead_name deliveries
      lead_address lead_zip =
      (deliveries.foldl
        (fuzzyStep sim (trimStr (lowerStr lead_name)) lead_address lead_zip)
        (none, 0)).1 := by
    unfold find_matching_delivery
    rw [hfind, if_neg hname]
  rw [hres]
  constructor
  · cases hr : (deliveries.foldl
        (fuzzyStep sim (trimStr (lowerStr lead_name)) lead_address lead_zip)
        (none, 0)).1 with
    | none =>
      cases hq : deliveries.any
          (fuzzyQualifiesB sim (trimStr (lowerStr lead_name)) lead_address
            lead_zip) with
      | false => rfl
      | true =>
        obtain ⟨d, hd, hdq⟩ := List.any_eq_true.mp hq
        have := fuzzyFold_complete sim (trimStr (lowerStr lead_name))
          lead_address lead_zip deliveries ⟨d, hd, hdq⟩
        rw [hr] at this
        cases this
    | some d =>
      rcases fuzzyFold_sound sim (trimStr (lowerStr lead_name)) lead_address
          lead_zip deliveries (none, 0) d hr with h1 | h2
      · cases h1
      · exact (List.any_eq_true.mpr ⟨d, h2.1, h2.2⟩).symm
  · cases hr : (deliveries.foldl
        (fuzzyStep sim (trimStr (lowerStr lead_name)) lead_address lead_zip)
        (none, 0)).1 with
    | none => rfl
    | some d =>
      rcases fuzzyFold_sound sim (trimStr (lowerStr lead_name)) lead_address
          lead_zip deliveries (none, 0) d hr with h1 | h2
      · cases h1
      · simp [Option.all, h2.1, h2.2]

/-- Witness for `claim_C3_amended` on a one-delivery list with a 70%
similarity, a lead with no address or zip, and no direct id match. -/
theorem claim_C3_amended_witness :
    ((find_matching_delivery (fun _ _ => 70) "L7" "Jane Roe"
        [Delivery.mk (some "D1") (some "Jan Roe") none none none] ""
        "").isSome =
      List.any [Delivery.mk (some "D1") (some "Jan Roe") none none none]
        (fuzzyQualifiesB (fun _ _ => 70) (trimStr (lowerStr "Jane Roe")) ""
          "")) ∧
    ((find_matching_delivery (fun _ _ => 70) "L7" "Jane Roe"
        [Delivery.mk (some "D1") (some "Jan Roe") none none none] ""
        "").all
      (fun d =>
        decide (d ∈ [Delivery.mk (some "D1") (some "Jan Roe") none none none])
          &&
        fuzzyQualifiesB (fun _ _ => 70) (trimStr (lowerStr "Jane Roe")) "" ""
          d) = true) :=
  claim_C3_amended (fun _ _ => 70) "L7" "Jane Roe"
    [Delivery.mk (some "D1") (some "Jan Roe") none none none] "" ""
    (by decide) (by decide)

/-! ## Request executor (src/zoho_client.py, `_parse_retry_after`,
`_make_request`) -/

def MAX_RATE_LIMIT_RETRIES : Nat := 2

def DEFAULT_RETRY_AFTER : Int := 60

def ERROR_TYPE_CONNECTION : String := "connection"

def ERROR_TYPE_TIMEOUT : String := "timeout"

def ERROR_TYPE_AUTH : String := "auth"

def ERROR_TYPE_UNKNOWN : String := "unknown"

/-- Digit-string value used by the `int()` model: all characters must be
decimal digits and the string must be non-empty. -/
def digitsVal (l : List Char) : Option Nat :=
  if l = [] then none
  else
    l.foldl
      (fun acc c =>
        match acc with
        | none => none
        | some n => if c.isDigit then some (n * 10 + (c.toNat - 48)) else none)
      (some 0)

/-- Python `int(str)`: optional surrounding whitespace, optional sign,
decimal digits; `none` when the call would raise `ValueError`. -/
def pyIntParse (s : String) : Option Int :=
  match (trimStr s).data with
  | [] => none
  | c :: rest =>
    if c = '-' then (digitsVal rest).map (fun n => -(n : Int))
    else if c = '+' then (digitsVal rest).map (fun n => (n : Int))
    else (digitsVal (c :: rest)).map (fun n => (n : Int))

/-- `_parse_retry_after(header_value)` (src/zoho_client.py lines
264-280): the parsed integer, or `DEFAULT_RETRY_AFTER` when the header
is absent or not an integer. -/
def parse_retry_after (header_value : Option String) : Int :=
  match header_value with
  | none => DEFAULT_RETRY_AFTER
  | some v =>
    match pyIntParse v with
    | some n => n
    | none => DEFAULT_RETRY_AFTER

/-- An HTTP response as seen by `_make_request`: status code and the
`Retry-After` header. -/
structure HttpResponse where
  status : Nat
  retryAfter : Option String
deriving DecidableEq, Repr

/-- The `st.session_state.zoho_error` / `zoho_error_type` pair that
`_set_error` writes and `_clear_error` clears. -/
structure ErrState where
  message : Option String
  errType : Option String
deriving DecidableEq, Repr

/-- The error message recorded when rate-limit retries are exhausted
(src/zoho_client.py lines 382-386). -/
def rateLimitErrMsg : String :=
  "Too many requests to Zoho CRM. Rate limit exceeded after retries. Please try again later."

/-- `_make_request` (src/zoho_client.py lines 283-430), restricted to
its status-code handling.  `responses` is the oracle giving the response
of each successive HTTP attempt (attempt `idx` first); token
acquisition, the request body, and network-exception paths are outside
the modelled claims.  The 401 branch refetches the token and retries
once (never from a worker with a prefetched token); the 429 branch
sleeps `Retry-After` seconds and retries while fewer than
`MAX_RATE_LIMIT_RETRIES` retries have been used, then gives up recording
a connection-type error.  Returns the response (if any), the list of
sleep durations performed, and the final error state. -/
def make_request (responses : Nat → HttpResponse) (idx : Nat)
    (retry_on_401 : Bool) (rate_limit_retries : Nat) (prefetched : Bool)
    (err : ErrState) : Option HttpResponse × List Int × ErrState :=
  let r := responses idx
  if (r.status = 401 ∧ retry_on_401 = true ∧ prefetched = false) then
    make_request responses (idx + 1) false rate_limit_retries prefetched err
  else if r.status = 429 then
    let retry_after := parse_retry_after r.retryAfter
    if h : rate_limit_retries < MAX_RATE_LIMIT_RETRIES then
      let rec_res := make_request responses (idx + 1) retry_on_401
        (rate_limit_retries + 1) prefetched err
      (rec_res.1, retry_after :: rec_res.2.1, rec_res.2.2)
    else
      (none, [],
        if prefetched then err
        else ⟨some rateLimitErrMsg, some ERROR_TYPE_CONNECTION⟩)
  else if 400 ≤ r.status then
    (none, [],
      if prefetched then err
      else
        ⟨some ("Zoho CRM returned an error (status " ++ toString r.status ++
          "). Please try again or contact support if the issue persists."),
         some ERROR_TYPE_UNKNOWN⟩)
  else
    (some r, [], if prefetched then err else ⟨none, none⟩)
termination_by
  2 * (MAX_RATE_LIMIT_RETRIES + 1 - rate_limit_retries) +
    (if retry_on_401 then 1 else 0)
decreasing_by
  · rename_i h401
    rw [h401.2.1]
    simp only [if_true, if_false]
    omega
  · cases retry_on_401 <;> simp_all [MAX_RATE_LIMIT_RETRIES] <;> omega

/-! ## Stage-history fetch (src/zoho_client.py, `get_stage_history`,
`_fetch_stage_history_from_api`, `get_stage_histories_batch`) -/

/-- The epoch-second value of Python's `datetime.min` (year 1), used as
the sort key for transitions with no parseable timestamp. -/
def DATETIME_MIN : Int := -62135596800

/-- The sort key of the transition sort:
`x["changed_at"] if x["changed_at"] else datetime.min`. -/
def sortKey (t : Transition) : Int :=
  t.changed_at.getD DATETIME_MIN

/-- `stage_transitions.sort(key=...)` (src/zoho_client.py lines 767-770
and 979-981): stable ascending sort by timestamp, missing timestamps
sorting as `datetime.min`. -/
def sortTransitions (l : List Transition) : List Transition :=
  List.insertionSort (fun a b => sortKey a ≤ sortKey b) l

/-- `_fetch_stage_history_from_api(lead_id, current_stage, ...)`
(src/zoho_client.py lines 926-1017) after the HTTP layer: `apiResult` is
the Stage-field transitions extracted from the timeline response
(`none` when the request failed or the payload was malformed).  On
success the transitions are sorted chronologically and, when the last
transition's `to_stage` is truthy and differs from a truthy
`current_stage`, a synthetic trailing transition
`(from=last_to_stage, to=current_stage, changed_at=now)` is appended.
The identical inline fetch path of `get_stage_history` (lines 730-802)
is embedded by this same function. -/
def fetch_stage_history_from_api (current_stage : Option String)
    (apiResult : Option (List Transition)) (now : Int) :
    Option (List Transition) :=
  match apiResult with
  | none => none
  | some ts0 =>
    let ts1 := sortTransitions ts0
    if optTruthy current_stage ∧ ts1 ≠ [] then
      let last_to_stage := (ts1.getLast?).bind Transition.to_stage
      if optTruthy last_to_stage ∧ last_to_stage ≠ current_stage then
        ts1 ++ [(⟨last_to_stage, current_stage, some now⟩ : Transition)]
      else ts1
    else ts1

/-- The outcome of one `get_stage_history` call: the returned value, the
number of timeline-API requests issued, and the payload written to the
cache (if any). -/
structure StageHistoryRun where
  result : Option (List Transition)
  apiCalls : Nat
  cacheWrite : Option (List Transition)
deriving DecidableEq, Repr

/-- `get_stage_history(lead_id, current_stage)` (src/zoho_client.py
lines 710-809).  `cached` is the value served by
`get_cached_stage_history` (`none` = miss or expired); `fetched` is the
oracle for the timeline-API transitions.  Smart invalidation: a
non-empty cached history whose last transition's truthy `to_stage`
differs from a truthy `current_stage` is discarded and refetched; a
fetch error returns `None` without caching; a fetch success is cached
and returned. -/
def get_stage_history (cached : Option (List Transition))
    (current_stage : Option String) (fetched : Option (List Transition))
    (now : Int) : StageHistoryRun :=
  let cached1 : Option (List Transition) :=
    match cached with
    | none => none
    | some c =>
      if optTruthy current_stage ∧ c ≠ [] then
        let last_cached_stage := (c.getLast?).bind Transition.to_stage
        if optTruthy last_cached_stage ∧ last_cached_stage ≠ current_stage
        then none
        else some c
      else some c
  match cached1 with
  | some c => ⟨some c, 0, none⟩
  | none =>
    match fetch_stage_history_from_api current_stage fetched now with
    | none => ⟨none, 1, none⟩
    | some ts => ⟨some ts, 1, some ts⟩

/-- `get_stage_histories_batch(leads)` (src/zoho_client.py lines
812-923).  `leads` carries `(id, Stage)` pairs (falsy ids are dropped);
`cached` is the batch cache read; `api` gives each uncached lead's
timeline fetch outcome, `.error ()` standing for a worker exception.
Returns the merged result map and the batch of entries upserted to the
cache, both as association lists.  A lead whose fetch fails or errors
appears in neither. -/
def get_stage_histories_batch (leads : List (String × Option String))
    (cached : String → Option (List Transition))
    (api : String → Except Unit (Option (List Transition))) (now : Int) :
    List (String × List Transition) × List (String × List Transition) :=
  let leads' := leads.filter (fun l => l.1 ≠ "")
  let cacheServed := leads'.filterMap (fun l =>
    match cached l.1 with
    | none => none
    | some h =>
      if optTruthy l.2 ∧ h ≠ [] then
        let last_cached_stage := (h.getLast?).bind Transition.to_stage
        if optTruthy last_cached_stage ∧ last_cached_stage ≠ l.2 then none
        else some (l.1, h)
      else some (l.1, h))
  let uncached := leads'.filter (fun l =>
    match cached l.1 with
    | none => true
    | some h =>
      if optTruthy l.2 ∧ h ≠ [] then
        let last_cached_stage := (h.getLast?).bind Transition.to_stage
        decide (optTruthy last_cached_stage ∧ last_cached_stage ≠ l.2)
      else false)
  let fetched := uncached.filterMap (fun l =>
    match api l.1 with
    | Except.error _ => none
    | Except.ok r =>
      match fetch_stage_history_from_api l.2 r now with
      | none => none
      | some h => some (l.1, h))
  (cacheServed ++ fetched, fetched)

/-! ## Notes batch fetch (src/zoho_client.py, `get_notes_for_leads`;
src/cache.py, `NO_NOTES_MARKER`) -/

def NO_NOTES_MARKER : String := "__NO_NOTES__"

/-- `get_notes_for_leads(lead_ids)` (src/zoho_client.py lines
1020-1095).  `cached_notes` is the map served by `get_cached_notes`;
`fetchNote` gives each uncached lead's `_fetch_latest_note_for_lead`
outcome — `.ok (some note)` a note, `.ok none` the function returned
`None` (no notes, or the request failed inside it), `.error ()` a
worker exception.  Returns the merged notes map and the batch written
to the notes cache: a lead with no fetched note is recorded with empty
content in the result and with the `NO_NOTES_MARKER` sentinel in the
cache, in the error cases as well. -/
def get_notes_for_leads (lead_ids : List String)
    (cached_notes : String → Option Note)
    (fetchNote : String → Except Unit (Option Note)) :
    List (String × Note) × List (String × Note) :=
  let cachedPart := lead_ids.filterMap
    (fun lid => (cached_notes lid).map (fun n => (lid, n)))
  let uncached_ids := lead_ids.filter (fun lid => (cached_notes lid).isNone)
  let fresh := uncached_ids.map (fun lid =>
    match fetchNote lid with
    | Except.ok (some r) => (lid, r)
    | Except.ok none => (lid, (⟨"", none⟩ : Note))
    | Except.error _ => (lid, (⟨"", none⟩ : Note)))
  let notes_to_cache := uncached_ids.map (fun lid =>
    match fetchNote lid with
    | Except.ok (some r) => (lid, r)
    | Except.ok none => (lid, (⟨NO_NOTES_MARKER, none⟩ : Note))
    | Except.error _ => (lid, (⟨NO_NOTES_MARKER, none⟩ : Note)))
  (cachedPart ++ fresh, notes_to_cache)

/-! ## TTL cache (src/cache.py, `get_cached_stage_histories_batch`,
`set_cached_stage_histories_batch`) -/

def CACHE_TTL_HOURS : Int := 24

def BATCH_QUERY_CHUNK_SIZE : Nat := 100

/-- A row of the `stage_history_cache` table: an opaque payload plus its
`cached_at` timestamp. -/
structure CacheEntry (α : Type) where
  payload : α
  cached_at : Int
deriving DecidableEq, Repr

/-- The chunking of a key list into `BATCH_QUERY_CHUNK_SIZE`-sized
slices performed by the batch cache reads. -/
def chunks100 {β : Type} : List β → List (List β)
  | [] => []
  | x :: xs =>
    (x :: xs).take BATCH_QUERY_CHUNK_SIZE ::
      chunks100 ((x :: xs).drop BATCH_QUERY_CHUNK_SIZE)
termination_by l => l.length
decreasing_by
  simp only [List.length_drop, BATCH_QUERY_CHUNK_SIZE, List.length_cons]
  omega

/-- `get_cached_stage_histories_batch(lead_ids)` (src/cache.py lines
98-140): chunked batch read; a row is served only when
`now - cached_at <= timedelta(hours=24)`, and stale or missing rows are
simply absent from the result.  The payload type is opaque to the
store. -/
def get_cached_stage_histories_batch {α : Type}
    (store : String → Option (CacheEntry α)) (lead_ids : List String)
    (now : Int) : List (String × α) :=
  (chunks100 lead_ids).foldl
    (fun acc chunk =>
      acc ++ chunk.filterMap (fun k =>
        match store k with
        | none => none
        | some e =>
          if now - e.cached_at ≤ CACHE_TTL_HOURS * 3600 then
            some (k, e.payload)
          else none))
    []

/-- `set_cached_stage_histories_batch(stage_histories)` (src/cache.py
lines 174-210): one batched upsert writing every entry with a fresh
`cached_at = now`. -/
def set_cached_stage_histories_batch {α : Type}
    (store : String → Option (CacheEntry α)) (entries : List (String × α))
    (now : Int) : String → Option (CacheEntry α) :=
  entries.foldl
    (fun s kv => fun k => if k = kv.1 then some ⟨kv.2, now⟩ else s k)
    store

/-! ## Claims C4 and C9: smart invalidation, the synthetic transition,
and the empty-history cases -/

/-- C4: with a cached history whose last transition's truthy `to_stage`
A differs from the caller-supplied truthy current stage B, the cache
entry is treated as stale and exactly one refetch is issued; when the
refetched (sorted) history's last transition still carries a truthy
`to_stage` differing from B, a synthetic transition
`(from=last_to_stage, to=B, changed_at=now)` is appended before
caching, so the returned and cached history ends in stage B. -/
theorem claim_C4_thm (c : List Transition) (A B A2 : String)
    (fetched : List Transition) (now : Int)
    (hA : (c.getLast?).bind Transition.to_stage = some A)
    (hAt : A ≠ "") (hB : B ≠ "") (hAB : A ≠ B)
    (hA2 : ((sortTransitions fetched).getLast?).bind Transition.to_stage =
      some A2)
    (hA2t : A2 ≠ "") (hA2B : A2 ≠ B) :
    (get_stage_history (some c) (some B) (some fetched) now).apiCalls = 1 ∧
    (get_stage_history (some c) (some B) (some fetched) now).result =
      some (sortTransitions fetched ++
        [(⟨some A2, some B, some now⟩ : Transition)]) ∧
    (get_stage_history (some c) (some B) (some fetched) now).cacheWrite =
      (get_stage_history (some c) (some B) (some fetched) now).result ∧
    (((sortTransitions fetched ++
        [(⟨some A2, some B, some now⟩ : Transition)]).getLast?).bind
      Transition.to_stage) = some B := by
  have hc : c ≠ [] := by
    intro h
    rw [h] at hA
    simp at hA
  have hts : sortTransitions fetched ≠ [] := by
    intro h
    rw [h] at hA2
    simp at hA2
  have hBt : optTruthy (some B) = true := by simp [optTruthy, hB]
  have hfetch : fetch_stage_history_from_api (some B) (some fetched) now =
      some (sortTransitions fetched ++
        [(⟨some A2, some B, some now⟩ : Transition)]) := by
    unfold fetch_stage_history_from_api
    dsimp only
    rw [if_pos ⟨hBt, hts⟩]
    rw [hA2]
    rw [if_pos ⟨by simp [optTruthy, hA2t], by simp [hA2B]⟩]
  have hcached1 : (if optTruthy (some B) ∧ c ≠ [] then
      if optTruthy ((c.getLast?).bind Transition.to_stage) ∧
          (c.getLast?).bind Transition.to_stage ≠ some B
      then (none : Option (List Transition))
      else some c
    else some c) = none := by
    rw [if_pos ⟨hBt, hc⟩, hA]
    rw [if_pos ⟨by simp [optTruthy, hAt], by simp [hAB]⟩]
  have hrun : get_stage_history (some c) (some B) (some fetched) now =
      ⟨some (sortTransitions fetched ++
        [(⟨some A2, some B, some now⟩ : Transition)]), 1,
       some (sortTransitions fetched ++
        [(⟨some A2, some B, some now⟩ : Transition)])⟩ := by
    unfold get_stage_history
    dsimp only
    rw [hcached1, hfetch]
  rw [hrun]
  refine ⟨rfl, rfl, rfl, ?_⟩
  rw [List.getLast?_concat]
  rfl

/-- Witness for `claim_C4_thm`: a cached history ending in "Fresh", a
current stage "Approved", and a refetched one-transition history also
ending in "Fresh". -/
theorem claim_C4_witness :
    (get_stage_history
        (some [(⟨none, some "Fresh", some 100⟩ : Transition)])
        (some "Approved")
        (some [(⟨none, some "Fresh", some 100⟩ : Transition)])
        (500 : Int)).apiCalls = 1 ∧
    (get_stage_history
        (some [(⟨none, some "Fresh", some 100⟩ : Transition)])
        (some "Approved")
        (some [(⟨none, some "Fresh", some 100⟩ : Transition)])
        (500 : Int)).result =
      some (sortTransitions [(⟨none, some "Fresh", some 100⟩ : Transition)] ++
        [(⟨some "Fresh", some "Approved", some 500⟩ : Transition)]) ∧
    (get_stage_history
        (some [(⟨none, some "Fresh", some 100⟩ : Transition)])
        (some "Approved")
        (some [(⟨none, some "Fresh", some 100⟩ : Transition)])
        (500 : Int)).cacheWrite =
      (get_stage_history
        (some [(⟨none, some "Fresh", some 100⟩ : Transition)])
        (some "Approved")
        (some [(⟨none, some "Fresh", some 100⟩ : Transition)])
        (500 : Int)).result ∧
    (((sortTransitions [(⟨none, some "Fresh", some 100⟩ : Transition)] ++
        [(⟨some "Fresh", some "Approved", some 500⟩ : Transition)]).getLast?).bind
      Transition.to_stage) = some "Approved" :=
  claim_C4_thm [(⟨none, some "Fresh", some 100⟩ : Transition)]
    "Fresh" "Approved" "Fresh"
    [(⟨none, some "Fresh", some 100⟩ : Transition)] 500
    rfl (by decide) (by decide) (by decide) rfl (by decide) (by decide)

/-- C9: the smart-invalidation and synthetic-transition logic skips
empty histories — an empty cached history is returned as-is with no
refetch for any supplied current stage, and a refetch that yields an
empty history is cached and returned unchanged with no synthetic
transition, so it does not end in the current stage. -/
theorem claim_C9_thm (cs cs2 : Option String)
    (f : Option (List Transition)) (now now2 : Int) :
    get_stage_history (some []) cs f now =
      ⟨some [], 0, none⟩ ∧
    get_stage_history none cs2 (some []) now2 =
      ⟨some [], 1, some []⟩ ∧
    ((([] : List Transition).getLast?).bind Transition.to_stage) = none := by
  refine ⟨?_, ?_, rfl⟩
  · unfold get_stage_history
    dsimp only
    rw [if_neg (fun h => h.2 rfl)]
  · unfold get_stage_history fetch_stage_history_from_api
    dsimp only
    rw [if_neg (fun h => h.2 rfl)]
    rfl

/-! ## Claim C6: 429 handling in the request executor -/

/-- A 429 response with retries remaining: sleep `Retry-After` seconds
and retry once more. -/
theorem make_request_429_retry (responses : Nat → HttpResponse)
    (idx : Nat) (retry_on_401 : Bool) (rr : Nat) (prefetched : Bool)
    (err : ErrState) (hs : (responses idx).status = 429)
    (h : rr < MAX_RATE_LIMIT_RETRIES) :
    make_request responses idx retry_on_401 rr prefetched err =
      ((make_request responses (idx + 1) retry_on_401 (rr + 1) prefetched
          err).1,
       parse_retry_after (responses idx).retryAfter ::
         (make_request responses (idx + 1) retry_on_401 (rr + 1) prefetched
           err).2.1,
       (make_request responses (idx + 1) retry_on_401 (rr + 1) prefetched
         err).2.2) := by
  rw [make_request]
  rw [if_neg (fun hc => by rw [hs] at hc; exact absurd hc.1 (by decide))]
  rw [if_pos hs, dif_pos h]

/-- A 429 response with retries exhausted: give up, recording the
rate-limit message under the connection error type (unless running with
a prefetched worker token). -/
theorem make_request_429_exhausted (responses : Nat → HttpResponse)
    (idx : Nat) (retry_on_401 : Bool) (rr : Nat) (prefetched : Bool)
    (err : ErrState) (hs : (responses idx).status = 429)
    (h : ¬ rr < MAX_RATE_LIMIT_RETRIES) :
    make_request responses idx retry_on_401 rr prefetched err =
      (none, [],
        if prefetched then err
        else ⟨some rateLimitErrMsg, some ERROR_TYPE_CONNECTION⟩) := by
  rw [make_request]
  rw [if_neg (fun hc => by rw [hs] at hc; exact absurd hc.1 (by decide))]
  rw [if_pos hs, dif_neg h]

/-- C6 (claim as stated is refuted here): when every attempt returns
HTTP 429, the executor gives up after its retries with a failure whose
recorded error kind is the ordinary connection type — the error
taxonomy of the code has only connection/timeout/auth/unknown, so no
rate-limit-specific kind distinguishable from them exists. -/
theorem claim_C6_counterexample :
    (make_request (fun _ => ⟨429, none⟩) 0 true 0 false
        ⟨none, none⟩).2.2.errType = some ERROR_TYPE_CONNECTION ∧
    (make_request (fun _ => ⟨429, none⟩) 0 true 0 false ⟨none, none⟩).1 =
      none ∧
    ERROR_TYPE_CONNECTION = "connection" := by
  have h0 := make_request_429_retry (fun _ => ⟨429, none⟩) 0 true 0 false
    ⟨none, none⟩ rfl (by decide)
  have h1 := make_request_429_retry (fun _ => ⟨429, none⟩) 1 true 1 false
    ⟨none, none⟩ rfl (by decide)
  have h2 := make_request_429_exhausted (fun _ => ⟨429, none⟩) 2 true 2 false
    ⟨none, none⟩ rfl (by decide)
  rw [h0, h1, h2]
  exact ⟨rfl, rfl, rfl⟩

/-- C6 (amended): on HTTP 429 the executor waits the number of seconds
given by `Retry-After` (60 when the header is absent or unparsable) and
retries, up to 2 retries (three attempts in all); when retries are
exhausted it returns a failure whose message states that the rate limit
was exceeded, recorded under the connection error type rather than a
distinct rate-limit kind. -/
theorem claim_C6_amended (responses : Nat → HttpResponse)
    (h0 h1 h2 : Option String)
    (hr0 : responses 0 = ⟨429, h0⟩) (hr1 : responses 1 = ⟨429, h1⟩)
    (hr2 : responses 2 = ⟨429, h2⟩) :
    make_request responses 0 true 0 false ⟨none, none⟩ =
      (none, [parse_retry_after h0, parse_retry_after h1],
        ⟨some rateLimitErrMsg, some ERROR_TYPE_CONNECTION⟩) ∧
    parse_retry_after none = DEFAULT_RETRY_AFTER ∧
    parse_retry_after (some "soon") = DEFAULT_RETRY_AFTER ∧
    parse_retry_after (some "120") = 120 := by
  have s0 := make_request_429_retry responses 0 true 0 false ⟨none, none⟩
    (by rw [hr0]) (by decide)
  have s1 := make_request_429_retry responses 1 true 1 false ⟨none, none⟩
    (by rw [hr1]) (by decide)
  have s2 := make_request_429_exhausted responses 2 true 2 false ⟨none, none⟩
    (by rw [hr2]) (by decide)
  rw [s0, s1, s2]
  rw [hr0, hr1]
  exact ⟨rfl, rfl, rfl, by decide⟩

/-- Witness for `claim_C6_amended` with a constant 429 response carrying
`Retry-After: 7`. -/
theorem claim_C6_amended_witness :
    make_request (fun _ => ⟨429, some "7"⟩) 0 true 0 false ⟨none, none⟩ =
      (none, [parse_retry_after (some "7"), parse_retry_after (some "7")],
        ⟨some rateLimitErrMsg, some ERROR_TYPE_CONNECTION⟩) ∧
    parse_retry_after none = DEFAULT_RETRY_AFTER ∧
    parse_retry_after (some "soon") = DEFAULT_RETRY_AFTER ∧
    parse_retry_after (some "120") = 120 :=
  claim_C6_amended (fun _ => ⟨429, some "7"⟩) (some "7") (some "7")
    (some "7") rfl rfl rfl

/-! ## Claim C7: per-lead failure semantics of the batch fetchers -/

/-- C7 (claim as stated is refuted here): in the notes batch fetch, a
lead whose fetch raises is NOT omitted — it is returned with empty
content, and the `NO_NOTES_MARKER` "confirmed absent" sentinel is
written to the cache for it, indistinguishable from a positive
no-notes result. -/
theorem claim_C7_counterexample :
    (get_notes_for_leads ["L1"] (fun _ => none)
        (fun _ => Except.error ())).1 =
      [("L1", (⟨"", none⟩ : Note))] ∧
    (get_notes_for_leads ["L1"] (fun _ => none)
        (fun _ => Except.error ())).2 =
      [("L1", (⟨NO_NOTES_MARKER, none⟩ : Note))] :=
  ⟨rfl, rfl⟩

/-- C7 (amended): in the stage-history batch fetch a single lead's
failure (worker exception or fetch error) does not fail the batch — the
failed lead is omitted from both the result map and the cache write,
while other leads are still served — but in the notes batch fetch a
failed lead is included in the result with empty content and the
`NO_NOTES_MARKER` sentinel is cached for it. -/
theorem claim_C7_amended (leads : List (String × Option String))
    (cached : String → Option (List Transition))
    (api : String → Except Unit (Option (List Transition))) (now : Int)
    (bad : String) (hcb : cached bad = none)
    (hab : api bad = Except.error ())
    (good : String) (gs : Option String) (hg1 : (good, gs) ∈ leads)
    (hg2 : good ≠ "") (hg3 : cached good = some [])
    (lead_ids : List String) (cachedN : String → Option Note)
    (fetchNote : String → Except Unit (Option Note)) (badN : String)
    (hmN : badN ∈ lead_ids) (hcN : cachedN badN = none)
    (haN : fetchNote badN = Except.error ()) :
    ((get_stage_histories_batch leads cached api now).1.all
      (fun p => p.1 != bad) = true) ∧
    ((get_stage_histories_batch leads cached api now).2.all
      (fun p => p.1 != bad) = true) ∧
    ((good, ([] : List Transition)) ∈
      (get_stage_histories_batch leads cached api now).1) ∧
    ((badN, (⟨"", none⟩ : Note)) ∈
      (get_notes_for_leads lead_ids cachedN fetchNote).1) ∧
    ((badN, (⟨NO_NOTES_MARKER, none⟩ : Note)) ∈
      (get_notes_for_leads lead_ids cachedN fetchNote).2) := by
  have hcache_ne : ∀ (l : String × Option String)
      (p : String × List Transition),
      (match cached l.1 with
      | none => none
      | some h =>
        if optTruthy l.2 ∧ h ≠ [] then
          let last_cached_stage := (h.getLast?).bind Transition.to_stage
          if optTruthy last_cached_stage ∧ last_cached_stage ≠ l.2 then none
          else some (l.1, h)
        else some (l.1, h)) = some p → p.1 ≠ bad := by
    intro l p hf hpb
    cases hcl : cached l.1 with
    | none => rw [hcl] at hf; cases hf
    | some h =>
      rw [hcl] at hf
      have hl1 : p.1 = l.1 := by
        dsimp only at hf
        split at hf
        · split at hf
          · cases hf
          · exact (Prod.mk.injEq _ _ _ _ ▸ (Option.some.inj hf).symm).1
        · exact (Prod.mk.injEq _ _ _ _ ▸ (Option.some.inj hf).symm).1
      rw [hpb] at hl1
      rw [← hl1] at hcl
      rw [hcb] at hcl
      cases hcl
  have hfetch_ne : ∀ (l : String × Option String)
      (p : String × List Transition),
      (match api l.1 with
      | Except.error _ => none
      | Except.ok r =>
        match fetch_stage_history_from_api l.2 r now with
        | none => none
        | some h => some (l.1, h)) = some p → p.1 ≠ bad := by
    intro l p hf hpb
    cases hal : api l.1 with
    | error e => rw [hal] at hf; cases hf
    | ok r =>
      rw [hal] at hf
      have hl1 : p.1 = l.1 := by
        dsimp only at hf
        split at hf
        · cases hf
        · exact (Prod.mk.injEq _ _ _ _ ▸ (Option.some.inj hf).symm).1
      rw [hpb] at hl1
      rw [← hl1] at hal
      rw [hab] at hal
      cases hal
  refine ⟨?_, ?_, ?_, ?_, ?_⟩
  · rw [List.all_eq_true]
    intro p hp
    rw [get_stage_histories_batch] at hp
    dsimp only at hp
    rcases List.mem_append.mp hp with hp1 | hp2
    · obtain ⟨l, _, hf⟩ := List.mem_filterMap.mp hp1
      simpa using hcache_ne l p hf
    · obtain ⟨l, _, hf⟩ := List.mem_filterMap.mp hp2
      simpa using hfetch_ne l p hf
  · rw [List.all_eq_true]
    intro p hp
    rw [get_stage_histories_batch] at hp
    dsimp only at hp
    obtain ⟨l, _, hf⟩ := List.mem_filterMap.mp hp
    simpa using hfetch_ne l p hf
  · rw [get_stage_histories_batch]
    dsimp only
    refine List.mem_append.mpr (Or.inl ?_)
    refine List.mem_filterMap.mpr ⟨(good, gs), ?_, ?_⟩
    · exact List.mem_filter.mpr ⟨hg1, by simp [hg2]⟩
    · rw [hg3]
      dsimp only
      rw [if_neg (fun h => h.2 rfl)]
  · rw [get_notes_for_leads]
    dsimp only
    refine List.mem_append.mpr (Or.inr ?_)
    refine List.mem_map.mpr ⟨badN, ?_, ?_⟩
    · exact List.mem_filter.mpr ⟨hmN, by simp [hcN]⟩
    · rw [haN]
  · rw [get_notes_for_leads]
    dsimp only
    refine List.mem_map.mpr ⟨badN, ?_, ?_⟩
    · exact List.mem_filter.mpr ⟨hmN, by simp [hcN]⟩
    · rw [haN]

/-- Witness for `claim_C7_amended`: lead "B" errors and is absent from
the stage-history result and cache write while cached lead "G" is
served; note lead "N1" errors yet appears with empty content and a
cached sentinel. -/
theorem claim_C7_amended_witness :
    ((get_stage_histories_batch [("G", some "S"), ("B", some "S")]
        (fun s => if s = "G" then some [] else none)
        (fun _ => Except.error ()) 0).1.all
      (fun p => p.1 != "B") = true) ∧
    ((get_stage_histories_batch [("G", some "S"), ("B", some "S")]
        (fun s => if s = "G" then some [] else none)
        (fun _ => Except.error ()) 0).2.all
      (fun p => p.1 != "B") = true) ∧
    (("G", ([] : List Transition)) ∈
      (get_stage_histories_batch [("G", some "S"), ("B", some "S")]
        (fun s => if s = "G" then some [] else none)
        (fun _ => Except.error ()) 0).1) ∧
    (("N1", (⟨"", none⟩ : Note)) ∈
      (get_notes_for_leads ["N1"] (fun _ => none)
        (fun _ => Except.error ())).1) ∧
    (("N1", (⟨NO_NOTES_MARKER, none⟩ : Note)) ∈
      (get_notes_for_leads ["N1"] (fun _ => none)
        (fun _ => Except.error ())).2) :=
  claim_C7_amended [("G", some "S"), ("B", some "S")]
    (fun s => if s = "G" then some [] else none)
    (fun _ => Except.error ()) 0 "B" (by decide) rfl
    "G" (some "S") (by decide) (by decide) (by decide)
    ["N1"] (fun _ => none) (fun _ => Except.error ()) "N1"
    (by decide) rfl rfl

/-! ## Claim C8: cache round-trip within and beyond the TTL -/

/-- The chunks of a key list reassemble to the original list. -/
theorem chunks100_flatten {β : Type} :
    ∀ l : List β, (chunks100 l).flatten = l
  | [] => by rw [chunks100]; rfl
  | x :: xs => by
    rw [chunks100, List.flatten_cons,
      chunks100_flatten ((x :: xs).drop BATCH_QUERY_CHUNK_SIZE)]
    exact List.take_append_drop _ _
termination_by l => l.length
decreasing_by
  simp only [List.length_drop, BATCH_QUERY_CHUNK_SIZE, List.length_cons]
  omega

/-- Folding chunk-wise filterMap appends is filterMap over the
flattened list. -/
theorem foldl_append_filterMap {β γ : Type} (f : β → Option γ) :
    ∀ (cs : List (List β)) (acc : List γ),
      cs.foldl (fun a c => a ++ c.filterMap f) acc =
        acc ++ (cs.flatten).filterMap f := by
  intro cs
  induction cs with
  | nil => intro acc; simp
  | cons c cs ih =>
    intro acc
    rw [List.foldl_cons, ih, List.flatten_cons, List.filterMap_append,
      List.append_assoc]

/-- The chunked batch read equals the direct per-key read. -/
theorem getBatch_eq_filterMap {α : Type}
    (store : String → Option (CacheEntry α)) (lead_ids : List String)
    (now : Int) :
    get_cached_stage_histories_batch store lead_ids now =
      lead_ids.filterMap (fun k =>
        match store k with
        | none => none
        | some e =>
          if now - e.cached_at ≤ CACHE_TTL_HOURS * 3600 then
            some (k, e.payload)
          else none) := by
  rw [get_cached_stage_histories_batch, foldl_append_filterMap,
    chunks100_flatten, List.nil_append]

/-- A batch write leaves keys outside the written set untouched. -/
theorem setBatch_lookup_notMem {α : Type} (now : Int) :
    ∀ (entries : List (String × α))
      (store : String → Option (CacheEntry α)) (k : String),
      k ∉ entries.map Prod.fst →
      set_cached_stage_histories_batch store entries now k = store k := by
  intro entries
  induction entries with
  | nil => intro store k _; rfl
  | cons e rest ih =>
    intro store k hk
    rw [List.map_cons] at hk
    have hne : k ≠ e.1 := fun h => hk (h ▸ List.mem_cons_self _ _)
    rw [set_cached_stage_histories_batch, List.foldl_cons]
    have hrec := ih (fun k' => if k' = e.1 then some ⟨e.2, now⟩ else store k')
      k (fun h => hk (List.mem_cons_of_mem _ h))
    rw [set_cached_stage_histories_batch] at hrec
    rw [hrec]
    simp only [if_neg hne]

/-- A batch write over distinct keys stores every written pair with the
write-time `cached_at`. -/
theorem setBatch_lookup_mem {α : Type} (now : Int) :
    ∀ (entries : List (String × α))
      (store : String → Option (CacheEntry α)) (k : String) (v : α),
      (entries.map Prod.fst).Nodup → (k, v) ∈ entries →
      set_cached_stage_histories_batch store entries now k =
        some ⟨v, now⟩ := by
  intro entries
  induction entries with
  | nil => intro store k v _ hm; cases hm
  | cons e rest ih =>
    intro store k v hnd hm
    rw [List.map_cons, List.nodup_cons] at hnd
    rw [set_cached_stage_histories_batch, List.foldl_cons]
    rcases List.mem_cons.mp hm with heq | hmem
    · subst heq
      have hrest : k ∉ rest.map Prod.fst := hnd.1
      have hrec := setBatch_lookup_notMem now rest
        (fun k' => if k' = (k, v).1 then some ⟨(k, v).2, now⟩ else store k')
        k hrest
      rw [set_cached_stage_histories_batch] at hrec
      rw [hrec]
      simp
    · have hrec := ih
        (fun k' => if k' = e.1 then some ⟨e.2, now⟩ else store k') k v
        hnd.2 hmem
      rw [set_cached_stage_histories_batch] at hrec
      rw [hrec]

/-- A filterMap over exactly the keys of an association list whose map
returns each pair reproduces the list. -/
theorem filterMap_keys_eq {α : Type} :
    ∀ (entries : List (String × α)) (g : String → Option (String × α)),
      (∀ p ∈ entries, g p.1 = some p) →
      (entries.map Prod.fst).filterMap g = entries := by
  intro entries
  induction entries with
  | nil => intro g _; rfl
  | cons e rest ih =>
    intro g hg
    rw [List.map_cons, List.filterMap_cons,
      hg e (List.mem_cons_self _ _), ih g
      (fun p hp => hg p (List.mem_cons_of_mem _ hp))]

/-- C8: batch-writing N stage-history entries (with pairwise-distinct
keys) and batch-reading those same N keys within the 24-hour TTL of the
write returns exactly the written key/payload pairs; reading the same
keys after the TTL has elapsed treats every entry as absent. -/
theorem claim_C8_thm {α : Type} (store : String → Option (CacheEntry α))
    (entries : List (String × α)) (t_w t_r1 t_r2 : Int)
    (hnd : (entries.map Prod.fst).Nodup)
    (hfresh : t_r1 - t_w ≤ CACHE_TTL_HOURS * 3600)
    (hstale : CACHE_TTL_HOURS * 3600 < t_r2 - t_w) :
    get_cached_stage_histories_batch
        (set_cached_stage_histories_batch store entries t_w)
        (entries.map Prod.fst) t_r1 = entries ∧
    get_cached_stage_histories_batch
        (set_cached_stage_histories_batch store entries t_w)
        (entries.map Prod.fst) t_r2 = [] := by
  constructor
  · rw [getBatch_eq_filterMap]
    apply filterMap_keys_eq
    intro p hp
    rw [setBatch_lookup_mem t_w entries store p.1 p.2 hnd hp]
    dsimp only
    rw [if_pos hfresh]
  · rw [getBatch_eq_filterMap]
    rw [List.filterMap_eq_nil_iff]
    intro k hk
    obtain ⟨p, hp, hpk⟩ := List.mem_map.mp hk
    rw [← hpk, setBatch_lookup_mem t_w entries store p.1 p.2 hnd hp]
    dsimp only
    rw [if_neg (not_le.mpr hstale)]

/-- Witness for `claim_C8_thm`: two entries written at time 0, read
back identically one hour later and missed entirely 100 hours later. -/
theorem claim_C8_witness :
    get_cached_stage_histories_batch
        (set_cached_stage_histories_batch (fun _ => none)
          [("a", 1), ("b", 2)] 0)
        ([("a", (1 : Nat)), ("b", 2)].map Prod.fst) 3600 =
      [("a", 1), ("b", 2)] ∧
    get_cached_stage_histories_batch
        (set_cached_stage_histories_batch (fun _ => none)
          [("a", 1), ("b", 2)] 0)
        ([("a", (1 : Nat)), ("b", 2)].map Prod.fst) 360000 = [] :=
  claim_C8_thm (fun _ => none) [("a", 1), ("b", 2)] 0 3600 360000
    (by decide) (by decide) (by decide)
